import Mathlib

/-!
Verification of the surface-grid illumination and occultation geometry core of
the KexEclipse repository: surface-grid generation (`CreatePosArray` in
`TimeFinder.py`), celestial-sphere projection (`CelestialSpherePosFinder`),
haversine angular separation (`AngularSeparation`), disk properties
(`GetDiskProperties` in `IlluminationCalculator.py`) and illumination
classification (`compute_illumination` in `galilean_illumination.py`),
shallowly embedded over the real numbers.  External ephemeris-toolkit calls
(surface-point lookup, rectangular-to-spherical conversion) are taken as
function parameters.
-/

namespace KexEclipse

open Real

/-- Body-fixed rectangular 3-vector (a surface point or relative position). -/
abbrev Vec3 := ℝ × ℝ × ℝ

/-- Euclidean norm of a 3-vector, as computed by `np.linalg.norm` on a row. -/
noncomputable def vecNorm (v : Vec3) : ℝ :=
  Real.sqrt (v.1 ^ 2 + v.2.1 ^ 2 + v.2.2 ^ 2)

/-- The `np.linspace(start, stop, num, endpoint=False)` sample list: `num`
uniformly spaced values starting at `start` with step `(stop - start) / num`. -/
noncomputable def linspaceNoEnd (start stop : ℝ) (num : ℕ) : List ℝ :=
  (List.range num).map (fun k : ℕ => start + (k : ℝ) * ((stop - start) / (num : ℝ)))

/-- Longitude samples of `CreatePosArray` (`TimeFinder.py` line 137):
`np.linspace(0, 2*np.pi, resolution, endpoint=False)`. -/
noncomputable def longitudesFull (resolution : ℕ) : List ℝ :=
  linspaceNoEnd 0 (2 * π) resolution

/-- Latitude samples of `CreatePosArray` (`TimeFinder.py` line 141):
`np.linspace(-np.pi/2, np.pi/2, resolution, endpoint=False)[1:]`. -/
noncomputable def latitudesGrid (resolution : ℕ) : List ℝ :=
  (linspaceNoEnd (-(π / 2)) (π / 2) resolution).drop 1

/-- First output of `np.meshgrid(xs, ys)` (default indexing): a matrix with
`ys.length` rows, each row being `xs`. -/
def meshgridX (xs ys : List ℝ) : List (List ℝ) :=
  ys.map (fun _ => xs)

/-- Second output of `np.meshgrid(xs, ys)`: a matrix with `ys.length` rows,
row `i` holding `ys[i]` repeated `xs.length` times. -/
def meshgridY (xs ys : List ℝ) : List (List ℝ) :=
  ys.map (fun y => xs.map (fun _ => y))

/-- The `lonlat` pair list built by `CreatePosArray` (`TimeFinder.py` lines
145-147): `np.column_stack((lon_grid.ravel(), lat_grid.ravel()))`, i.e. the
two raveled meshgrid matrices zipped into pairs. -/
noncomputable def CreatePosArrayLonlat (resolution : ℕ) : List (ℝ × ℝ) :=
  ((meshgridX (longitudesFull resolution) (latitudesGrid resolution)).flatten).zip
    ((meshgridY (longitudesFull resolution) (latitudesGrid resolution)).flatten)

/-- The surface-point array returned by `CreatePosArray` (`TimeFinder.py` line
153): `spice.latsrf` maps each planetocentric `(lon, lat)` pair to one
body-fixed surface point; the ephemeris-gateway conversion is the function
parameter `latsrf`. -/
noncomputable def CreatePosArray (latsrf : ℝ × ℝ → Vec3) (resolution : ℕ) : List Vec3 :=
  (CreatePosArrayLonlat resolution).map latsrf

/-- Modelled from the spec: the contract "Determinism: identical inputs yield
the identical ordered grid (longitude-major, then latitude)" describes a grid
listing all latitude samples of the first longitude before those of the second
longitude.  No such ordering exists in the source; this definition follows the
spec's words, for comparison with `CreatePosArrayLonlat`. -/
noncomputable def gridLonMajor (resolution : ℕ) : List (ℝ × ℝ) :=
  (longitudesFull resolution).flatMap
    (fun lon => (latitudesGrid resolution).map (fun lat => (lon, lat)))

/-- Error taxonomy of the spec (section 7), as far as the claims need it. -/
inductive GeomError where
  | invalidResolution : GeomError
  | degenerateGeometry : GeomError
deriving DecidableEq

/-- Modelled from the spec: `generate_grid` validates `resolution` and "fails
with `InvalidResolution` if resolution < 2".  The validation is absent from
`CreatePosArray` in the source (`TimeFinder.py` lines 133-155 and
`IlluminationCalculator.py` lines 28-53 perform no check); this checked
wrapper follows the spec's words, for comparison. -/
noncomputable def generate_grid (resolution : ℕ) : Except GeomError (List (ℝ × ℝ)) :=
  if resolution < 2 then Except.error GeomError.invalidResolution
  else Except.ok (CreatePosArrayLonlat resolution)

/-- Two-argument arctangent as computed by `np.arctan2 y x` (IEEE `atan2`,
signed zeros aside): quadrant-correct angle of the point `(x, y)`. -/
noncomputable def atan2 (y x : ℝ) : ℝ :=
  if 0 < x then Real.arctan (y / x)
  else if x < 0 then
    if 0 ≤ y then Real.arctan (y / x) + π else Real.arctan (y / x) - π
  else
    if 0 < y then π / 2
    else if y < 0 then -(π / 2)
    else 0

/-- The haversine intermediate `a` of `AngularSeparation` (`TimeFinder.py`
line 213): `sin(delta_dec/2)**2 + cos(dec1)*cos(dec2)*sin(delta_ra/2)**2`,
where a position is the pair (right ascension, declination). -/
noncomputable def haversineH (pos1 pos2 : ℝ × ℝ) : ℝ :=
  Real.sin ((pos2.2 - pos1.2) / 2) ^ 2 +
    Real.cos pos1.2 * Real.cos pos2.2 * Real.sin ((pos2.1 - pos1.1) / 2) ^ 2

/-- `AngularSeparation` (`TimeFinder.py` lines 202-216, duplicated in
`IlluminationCalculator.py` lines 119-133): haversine angular separation
`2 * arctan2(sqrt(a), sqrt(1 - a))` between two (ra, dec) positions. -/
noncomputable def AngularSeparation (pos1 pos2 : ℝ × ℝ) : ℝ :=
  2 * atan2 (Real.sqrt (haversineH pos1 pos2)) (Real.sqrt (1 - haversineH pos1 pos2))

/-- Modelled from the spec: the variant of `AngularSeparation` whose haversine
intermediate is clamped to [0, 1] before the square roots ("Must clamp `h` to
[0, 1] before the square roots").  No clamp appears in the source; this
definition follows the spec's words, for comparison. -/
noncomputable def AngularSeparationClamped (pos1 pos2 : ℝ × ℝ) : ℝ :=
  2 * atan2 (Real.sqrt (max 0 (min 1 (haversineH pos1 pos2))))
    (Real.sqrt (1 - max 0 (min 1 (haversineH pos1 pos2))))

/-- Per-point body of `CelestialSpherePosFinder` (`TimeFinder.py` lines
181-200): normalize the observer-to-target vector by its Euclidean norm, then
return (right ascension, declination) = (arctan2(ny, nx), arcsin(nz)).
The division is unconditional; no degeneracy check exists in the source. -/
noncomputable def CelestialSpherePosFinderPoint (target_wrt_surface : Vec3) : ℝ × ℝ :=
  (atan2 (target_wrt_surface.2.1 / vecNorm target_wrt_surface)
      (target_wrt_surface.1 / vecNorm target_wrt_surface),
    Real.arcsin (target_wrt_surface.2.2 / vecNorm target_wrt_surface))

/-- `CelestialSpherePosFinder` applied row-wise to the stack of
observer-to-target vectors. -/
noncomputable def CelestialSpherePosFinder (rows : List Vec3) : List (ℝ × ℝ) :=
  rows.map CelestialSpherePosFinderPoint

/-- Modelled from the spec: the Celestial Coordinate Projector's degenerate
case, "if `target_wrt_point` has near-zero magnitude ... fails with
`DegenerateGeometry` rather than producing NaN".  This check is absent from
`CelestialSpherePosFinder` in the source; this definition follows the spec's
words (zero magnitude in exact arithmetic), for comparison. -/
noncomputable def projectPointChecked (v : Vec3) : Except GeomError (ℝ × ℝ) :=
  if vecNorm v = 0 then Except.error GeomError.degenerateGeometry
  else Except.ok (CelestialSpherePosFinderPoint v)

/-- The per-point disk-properties record built inside the loop of
`GetDiskProperties` (`IlluminationCalculator.py` lines 64-74): subtract the
point from the body position, convert to spherical via the gateway's `recrad`
(returning (distance, ra, dec)), and return [ra, dec, atan(Radii/distance)]. -/
noncomputable def diskPropsPoint (recrad : Vec3 → ℝ × ℝ × ℝ) (Radii : ℝ)
    (body_pos : Vec3) (point : Vec3) : List ℝ :=
  ((recrad (body_pos.1 - point.1, body_pos.2.1 - point.2.1, body_pos.2.2 - point.2.2)).2.1) ::
    ((recrad (body_pos.1 - point.1, body_pos.2.1 - point.2.1, body_pos.2.2 - point.2.2)).2.2) ::
      (Real.arctan (Radii /
        (recrad (body_pos.1 - point.1, body_pos.2.1 - point.2.1, body_pos.2.2 - point.2.2)).1)) :: []

/-- `GetDiskProperties` (`IlluminationCalculator.py` lines 55-75): the body of
the `for point in srfPoints` loop ends in `return diskprops`, so the function
returns the record of the first surface point only; iterating an empty grid
falls through and returns `None`.  The gateway conversion `spice.recrad` is
the function parameter `recrad`. -/
noncomputable def GetDiskProperties (recrad : Vec3 → ℝ × ℝ × ℝ) (Radii : ℝ)
    (body_pos : Vec3) : List Vec3 → Option (List ℝ)
  | [] => none
  | point :: _ => some (diskPropsPoint recrad Radii body_pos point)

/-- A concrete stand-in gateway conversion used to evaluate
`GetDiskProperties` at a specific input. -/
noncomputable def recradUnit : Vec3 → ℝ × ℝ × ℝ :=
  fun _ => (1, 0, 0)

/-- `math.degrees`: radians to degrees. -/
noncomputable def degrees (x : ℝ) : ℝ :=
  x * (180 / π)

/-- Result record of `compute_illumination` (`galilean_illumination.py` lines
116-127), with the string pass-through fields omitted and the boolean shadow
flag kept as the proposition the code tests (`incdnc_deg > 90.0`). -/
structure IlluminationRecord where
  lat_deg : ℝ
  lon_deg : ℝ
  phase_angle_deg : ℝ
  solar_incidence_deg : ℝ
  emission_angle_deg : ℝ
  illuminated_fraction : ℝ
  solar_flux_fraction : ℝ
  in_shadow : Prop

/-- `compute_illumination` (`galilean_illumination.py` lines 58-127) after the
gateway call: given the illumination angles (phase, incidence, emission, in
radians) returned by `spice.ilumin`, build the result record.  The source sets
`illuminated_fraction = max(0.0, cos(incdnc))`, aliases `solar_flux_fraction`
to it, and sets `in_shadow = (degrees(incdnc) > 90.0)`. -/
noncomputable def compute_illumination (lat_deg lon_deg phase incdnc emissn : ℝ) :
    IlluminationRecord where
  lat_deg := lat_deg
  lon_deg := lon_deg
  phase_angle_deg := degrees phase
  solar_incidence_deg := degrees incdnc
  emission_angle_deg := degrees emissn
  illuminated_fraction := max 0 (Real.cos incdnc)
  solar_flux_fraction := max 0 (Real.cos incdnc)
  in_shadow := degrees incdnc > 90

/-- The illumination-classification core of `compute_illumination`
(`galilean_illumination.py` lines 108 and 114): the pair
(illuminated fraction, shadow flag) as a function of the incidence angle. -/
noncomputable def classifyIllumination (incdnc : ℝ) : ℝ × Prop :=
  (max 0 (Real.cos incdnc), degrees incdnc > 90)

/-! Helper lemmas about `atan2` and the haversine intermediate. -/

lemma atan2_zero_one : atan2 0 1 = 0 := by
  unfold atan2
  rw [if_pos one_pos]
  norm_num [Real.arctan_zero]

lemma atan2_nonneg_le_half_pi (y x : ℝ) (hy : 0 ≤ y) (hx : 0 ≤ x) :
    0 ≤ atan2 y x ∧ atan2 y x ≤ π / 2 := by
  have hpi := Real.pi_pos
  unfold atan2
  split_ifs with h1 h2 h3 h4
  · refine ⟨?_, (Real.arctan_lt_pi_div_two _).le⟩
    rw [← Real.arctan_zero]
    exact Real.arctan_strictMono.monotone (div_nonneg hy hx)
  · exact absurd h2 (not_lt.mpr hx)
  · exact ⟨by linarith, le_refl _⟩
  · exact absurd h4 (not_lt.mpr hy)
  · exact ⟨le_refl _, by linarith⟩

lemma haversineH_self (a : ℝ × ℝ) : haversineH a a = 0 := by
  simp [haversineH]

lemma haversineH_le_one (pos1 pos2 : ℝ × ℝ) : haversineH pos1 pos2 ≤ 1 := by
  obtain ⟨r1, d1⟩ := pos1
  obtain ⟨r2, d2⟩ := pos2
  simp only [haversineH]
  have hs1 : Real.sin ((d2 - d1) / 2) ^ 2 = 1 / 2 - Real.cos (d2 - d1) / 2 := by
    have h := Real.sin_sq_eq_half_sub ((d2 - d1) / 2)
    rwa [show 2 * ((d2 - d1) / 2) = d2 - d1 by ring] at h
  have hs2 : Real.sin ((r2 - r1) / 2) ^ 2 = 1 / 2 - Real.cos (r2 - r1) / 2 := by
    have h := Real.sin_sq_eq_half_sub ((r2 - r1) / 2)
    rwa [show 2 * ((r2 - r1) / 2) = r2 - r1 by ring] at h
  rw [hs1, hs2]
  rcases le_or_lt 0 (Real.cos d1 * Real.cos d2) with hc | hc
  · have hsub : Real.cos (d2 - d1) =
        Real.cos d2 * Real.cos d1 + Real.sin d2 * Real.sin d1 := Real.cos_sub d2 d1
    have hadd : Real.cos (d1 + d2) =
        Real.cos d1 * Real.cos d2 - Real.sin d1 * Real.sin d2 := Real.cos_add d1 d2
    have h1 : Real.cos (d1 + d2) ≤ 1 := Real.cos_le_one _
    have h2 : -1 ≤ Real.cos (r2 - r1) := Real.neg_one_le_cos _
    have h3 : 0 ≤ Real.cos d1 * Real.cos d2 * (Real.cos (r2 - r1) + 1) :=
      mul_nonneg hc (by linarith)
    nlinarith [h3]
  · have h2 : -1 ≤ Real.cos (d2 - d1) := Real.neg_one_le_cos _
    have h4 : 0 ≤ 1 / 2 - Real.cos (r2 - r1) / 2 := by
      linarith [Real.cos_le_one (r2 - r1)]
    nlinarith [mul_nonneg (neg_nonneg.mpr hc.le) h4]

lemma haversineH_nonneg (pos1 pos2 : ℝ × ℝ)
    (h1l : -(π / 2) ≤ pos1.2) (h1r : pos1.2 ≤ π / 2)
    (h2l : -(π / 2) ≤ pos2.2) (h2r : pos2.2 ≤ π / 2) :
    0 ≤ haversineH pos1 pos2 := by
  have hc1 : 0 ≤ Real.cos pos1.2 := Real.cos_nonneg_of_mem_Icc ⟨h1l, h1r⟩
  have hc2 : 0 ≤ Real.cos pos2.2 := Real.cos_nonneg_of_mem_Icc ⟨h2l, h2r⟩
  exact add_nonneg (sq_nonneg _) (mul_nonneg (mul_nonneg hc1 hc2) (sq_nonneg _))

lemma angularSeparation_mem (pos1 pos2 : ℝ × ℝ) :
    0 ≤ AngularSeparation pos1 pos2 ∧ AngularSeparation pos1 pos2 ≤ π := by
  have h := atan2_nonneg_le_half_pi (Real.sqrt (haversineH pos1 pos2))
    (Real.sqrt (1 - haversineH pos1 pos2)) (Real.sqrt_nonneg _) (Real.sqrt_nonneg _)
  unfold AngularSeparation
  exact ⟨by linarith [h.1], by linarith [h.2]⟩

/-- Claim C2: for every pair of valid coordinates (declination within
[-π/2, π/2]) the haversine intermediate lies in [0, 1] exactly — so the spec's
clamp to [0, 1] before the square roots is the identity and the clamped and
unclamped separations coincide — and the angular separation is a well-defined
real value in [0, π] (both square-root arguments are nonnegative; no NaN can
arise in exact arithmetic). -/
theorem angularSeparation_range_and_clamp (pos1 pos2 : ℝ × ℝ)
    (h1l : -(π / 2) ≤ pos1.2) (h1r : pos1.2 ≤ π / 2)
    (h2l : -(π / 2) ≤ pos2.2) (h2r : pos2.2 ≤ π / 2) :
    (0 ≤ haversineH pos1 pos2 ∧ haversineH pos1 pos2 ≤ 1) ∧
    AngularSeparation pos1 pos2 = AngularSeparationClamped pos1 pos2 ∧
    0 ≤ AngularSeparation pos1 pos2 ∧ AngularSeparation pos1 pos2 ≤ π := by
  have h0 : 0 ≤ haversineH pos1 pos2 := haversineH_nonneg pos1 pos2 h1l h1r h2l h2r
  have h1 : haversineH pos1 pos2 ≤ 1 := haversineH_le_one pos1 pos2
  have hclamp : max 0 (min 1 (haversineH pos1 pos2)) = haversineH pos1 pos2 := by
    rw [min_eq_right h1, max_eq_right h0]
  refine ⟨⟨h0, h1⟩, ?_, angularSeparation_mem pos1 pos2⟩
  unfold AngularSeparation AngularSeparationClamped
  rw [hclamp]

/-- Witness for claim C2 at the concrete coordinates (0, 0) and (0, 0). -/
theorem angularSeparation_range_and_clamp_witness :
    (-(π / 2) ≤ (0:ℝ) ∧ (0:ℝ) ≤ π / 2) ∧
    ((0 ≤ haversineH (0, 0) (0, 0) ∧ haversineH (0, 0) (0, 0) ≤ 1) ∧
      AngularSeparation (0, 0) (0, 0) = AngularSeparationClamped (0, 0) (0, 0) ∧
      0 ≤ AngularSeparation (0, 0) (0, 0) ∧ AngularSeparation (0, 0) (0, 0) ≤ π) := by
  have hl : -(π / 2) ≤ (0:ℝ) := by linarith [Real.pi_pos]
  have hr : (0:ℝ) ≤ π / 2 := by positivity
  exact ⟨⟨hl, hr⟩, angularSeparation_range_and_clamp (0, 0) (0, 0) hl hr hl hr⟩

/-- Claim C3: the angular separation of a coordinate with itself is 0, and
angular separation is symmetric in its two arguments. -/
theorem angularSeparation_identity_and_symmetry :
    (∀ a : ℝ × ℝ, AngularSeparation a a = 0) ∧
    (∀ a b : ℝ × ℝ, AngularSeparation a b = AngularSeparation b a) := by
  constructor
  · intro a
    simp [AngularSeparation, haversineH_self, atan2_zero_one]
  · intro a b
    have h : haversineH a b = haversineH b a := by
      simp only [haversineH]
      rw [show (b.2 - a.2) / 2 = -((a.2 - b.2) / 2) by ring,
        show (b.1 - a.1) / 2 = -((a.1 - b.1) / 2) by ring,
        Real.sin_neg, Real.sin_neg]
      ring
    simp only [AngularSeparation, h]

/-- Claim C9: the angular separation depends on the right ascensions only
through their difference — shifting both right ascensions by the same amount
leaves the separation unchanged. -/
theorem angularSeparation_ra_shift_invariant (ra1 dec1 ra2 dec2 d : ℝ) :
    AngularSeparation (ra1 + d, dec1) (ra2 + d, dec2) =
      AngularSeparation (ra1, dec1) (ra2, dec2) := by
  have h : haversineH (ra1 + d, dec1) (ra2 + d, dec2) = haversineH (ra1, dec1) (ra2, dec2) := by
    simp only [haversineH]
    rw [show ra2 + d - (ra1 + d) = ra2 - ra1 by ring]
  simp only [AngularSeparation, h]

/-! Helper lemmas about the meshgrid construction. -/

lemma zip_self_map_const (xs : List ℝ) (y : ℝ) :
    xs.zip (xs.map (fun _ => y)) = xs.map (fun x => (x, y)) := by
  induction xs with
  | nil => rfl
  | cons x xs ih => simp only [List.map_cons, List.zip_cons_cons, ih]

lemma flatten_zip_meshgrid (xs ys : List ℝ) :
    ((ys.map (fun _ => xs)).flatten).zip ((ys.map (fun y => xs.map (fun _ => y))).flatten) =
      (ys.map (fun y => xs.map (fun x => (x, y)))).flatten := by
  induction ys with
  | nil => rfl
  | cons y ys ih =>
    simp only [List.map_cons, List.flatten_cons]
    rw [List.zip_append (by simp), zip_self_map_const, ih]

lemma createPosArrayLonlat_eq (resolution : ℕ) :
    CreatePosArrayLonlat resolution =
      ((latitudesGrid resolution).map
        (fun lat => (longitudesFull resolution).map (fun lon => (lon, lat)))).flatten := by
  unfold CreatePosArrayLonlat meshgridX meshgridY
  exact flatten_zip_meshgrid _ _

lemma length_flatten_map_map (ys xs : List ℝ) (f : ℝ → ℝ → ℝ × ℝ) :
    ((ys.map (fun y => xs.map (f y))).flatten).length = ys.length * xs.length := by
  induction ys with
  | nil => simp
  | cons y ys ih =>
    simp only [List.map_cons, List.flatten_cons, List.length_append, List.length_map, ih,
      List.length_cons]
    ring

lemma length_longitudesFull (resolution : ℕ) :
    (longitudesFull resolution).length = resolution := by
  rw [longitudesFull, linspaceNoEnd, List.length_map, List.length_range]

lemma length_latitudesGrid (resolution : ℕ) :
    (latitudesGrid resolution).length = resolution - 1 := by
  rw [latitudesGrid, linspaceNoEnd, List.length_drop, List.length_map, List.length_range]

lemma longitudesFull_three : longitudesFull 3 = [0, 2 * π / 3, 4 * π / 3] := by
  have hr : List.range 3 = [0, 1, 2] := rfl
  simp only [longitudesFull, linspaceNoEnd, hr, List.map_cons, List.map_nil, List.cons.injEq,
    and_true]
  norm_num
  ring

lemma latitudesGrid_three : latitudesGrid 3 = [-(π / 6), π / 6] := by
  have hr : List.range 3 = [0, 1, 2] := rfl
  simp only [latitudesGrid, linspaceNoEnd, hr, List.map_cons, List.map_nil, List.drop_succ_cons,
    List.drop_zero, List.cons.injEq, and_true]
  norm_num
  constructor
  · ring
  · ring

lemma lonlat_three :
    CreatePosArrayLonlat 3 =
      [(0, -(π / 6)), (2 * π / 3, -(π / 6)), (4 * π / 3, -(π / 6)),
        (0, π / 6), (2 * π / 3, π / 6), (4 * π / 3, π / 6)] := by
  rw [createPosArrayLonlat_eq, longitudesFull_three, latitudesGrid_three]
  rfl

/-- Claim C1: for every resolution at least 2 the full-sphere generator yields
exactly resolution * (resolution - 1) surface points (one per generated
(longitude, latitude) pair, for any gateway surface-point conversion), and at
resolution 3 the generated (longitude, latitude) pairs are exactly the six
elements of the product set of {0, 2π/3, 4π/3} and {-π/6, π/6}. -/
theorem grid_count_and_resolution_three (latsrf : ℝ × ℝ → Vec3) (resolution : ℕ)
    (h : 2 ≤ resolution) :
    (CreatePosArray latsrf resolution).length = resolution * (resolution - 1) ∧
    CreatePosArrayLonlat 3 =
      [(0, -(π / 6)), (2 * π / 3, -(π / 6)), (4 * π / 3, -(π / 6)),
        (0, π / 6), (2 * π / 3, π / 6), (4 * π / 3, π / 6)] := by
  refine ⟨?_, lonlat_three⟩
  rw [CreatePosArray, List.length_map, createPosArrayLonlat_eq, length_flatten_map_map,
    length_longitudesFull, length_latitudesGrid, Nat.mul_comm]

/-- Witness for claim C1 at resolution 3 with a constant gateway conversion. -/
theorem grid_count_and_resolution_three_witness :
    2 ≤ 3 ∧
    ((CreatePosArray (fun _ => ((0:ℝ), (0:ℝ), (0:ℝ))) 3).length = 3 * (3 - 1) ∧
      CreatePosArrayLonlat 3 =
        [(0, -(π / 6)), (2 * π / 3, -(π / 6)), (4 * π / 3, -(π / 6)),
          (0, π / 6), (2 * π / 3, π / 6), (4 * π / 3, π / 6)]) :=
  ⟨by norm_num, grid_count_and_resolution_three (fun _ => (0, 0, 0)) 3 (by norm_num)⟩

/-- Claim C6 counterexample: at resolution 1 the source grid generator does
not fail — it returns a grid value (the empty list), unlike the spec-modelled
checked generator, which returns the InvalidResolution error. -/
theorem lowResolution_counterexample :
    CreatePosArrayLonlat 1 = [] ∧
    generate_grid 1 = Except.error GeomError.invalidResolution ∧
    Except.ok (CreatePosArrayLonlat 1) ≠ generate_grid 1 := by
  have h1 : CreatePosArrayLonlat 1 = [] := rfl
  have h2 : generate_grid 1 = Except.error GeomError.invalidResolution := by
    simp [generate_grid]
  exact ⟨h1, h2, by rw [h2]; simp⟩

/-- Claim C6 amended: the source performs no resolution validation; for every
resolution below 2 it silently returns an empty grid (zero points) rather than
an InvalidResolution error, diverging from the spec-modelled checked
generator. -/
theorem lowResolution_behavior (resolution : ℕ) (h : resolution < 2) :
    CreatePosArrayLonlat resolution = [] ∧
    Except.ok (CreatePosArrayLonlat resolution) ≠ generate_grid resolution := by
  have hempty : CreatePosArrayLonlat resolution = [] := by
    interval_cases resolution
    · rfl
    · rfl
  refine ⟨hempty, ?_⟩
  rw [hempty]
  simp [generate_grid, h]

/-- Witness for the amended claim C6 at resolution 0. -/
theorem lowResolution_behavior_witness :
    0 < 2 ∧
    (CreatePosArrayLonlat 0 = [] ∧
      Except.ok (CreatePosArrayLonlat 0) ≠ generate_grid 0) :=
  ⟨by norm_num, lowResolution_behavior 0 (by norm_num)⟩

lemma gridLonMajor_three :
    gridLonMajor 3 =
      [(0, -(π / 6)), (0, π / 6), (2 * π / 3, -(π / 6)), (2 * π / 3, π / 6),
        (4 * π / 3, -(π / 6)), (4 * π / 3, π / 6)] := by
  unfold gridLonMajor
  rw [longitudesFull_three, latitudesGrid_three]
  rfl

/-- Claim C8 counterexample: at resolution 3 the generated grid is not in
longitude-major order — its second element pairs the second longitude with the
first latitude, while a longitude-major grid pairs the first longitude with
the second latitude. -/
theorem grid_order_counterexample : CreatePosArrayLonlat 3 ≠ gridLonMajor 3 := by
  rw [lonlat_three, gridLonMajor_three]
  intro h
  have hpi := Real.pi_pos
  simp only [List.cons.injEq, Prod.mk.injEq] at h
  obtain ⟨-, ⟨h1, -⟩, -⟩ := h
  linarith

/-- Claim C8 amended: grid generation is deterministic — identical resolutions
yield identical ordered grids — and the sequence is latitude-major, then
longitude: all longitude samples of the first latitude precede those of the
second latitude. -/
theorem grid_deterministic_latitude_major (latsrf : ℝ × ℝ → Vec3) (res1 res2 : ℕ)
    (h : res1 = res2) :
    CreatePosArray latsrf res1 = CreatePosArray latsrf res2 ∧
    CreatePosArrayLonlat res1 =
      ((latitudesGrid res1).map
        (fun lat => (longitudesFull res1).map (fun lon => (lon, lat)))).flatten := by
  subst h
  exact ⟨rfl, createPosArrayLonlat_eq res1⟩

/-- Witness for the amended claim C8 at resolution 3. -/
theorem grid_deterministic_latitude_major_witness :
    (3 : ℕ) = 3 ∧
    (CreatePosArray (fun _ => ((0:ℝ), (0:ℝ), (0:ℝ))) 3 =
        CreatePosArray (fun _ => ((0:ℝ), (0:ℝ), (0:ℝ))) 3 ∧
      CreatePosArrayLonlat 3 =
        ((latitudesGrid 3).map
          (fun lat => (longitudesFull 3).map (fun lon => (lon, lat)))).flatten) :=
  ⟨rfl, grid_deterministic_latitude_major (fun _ => (0, 0, 0)) 3 3 rfl⟩

/-! Helper lemma converting the source's degree-threshold shadow test to the
radian threshold of the spec. -/

lemma degrees_gt_ninety_iff (x : ℝ) : degrees x > 90 ↔ π / 2 < x := by
  have hpi := Real.pi_pos
  have hpos : (0:ℝ) < 180 / π := by positivity
  have h90 : (90:ℝ) = π / 2 * (180 / π) := by
    field_simp
    ring
  rw [degrees, gt_iff_lt, h90, mul_lt_mul_right hpos]

/-- Claim C5 counterexample: at the zero vector (a grid point coinciding with
the target) the source projection does not fail — it still returns a
coordinate pair (built by dividing by the zero norm, NaN in floating point) —
unlike the spec-modelled checked projector, which returns the
DegenerateGeometry error. -/
theorem projector_degenerate_counterexample :
    projectPointChecked ((0:ℝ), (0:ℝ), (0:ℝ)) = Except.error GeomError.degenerateGeometry ∧
    Except.ok (CelestialSpherePosFinderPoint ((0:ℝ), (0:ℝ), (0:ℝ))) ≠
      projectPointChecked ((0:ℝ), (0:ℝ), (0:ℝ)) := by
  have hz : vecNorm ((0:ℝ), (0:ℝ), (0:ℝ)) = 0 := by
    simp [vecNorm]
  have h1 : projectPointChecked ((0:ℝ), (0:ℝ), (0:ℝ)) =
      Except.error GeomError.degenerateGeometry := by
    rw [projectPointChecked, if_pos hz]
  exact ⟨h1, by rw [h1]; simp⟩

/-- Claim C5 amended: the source performs no degeneracy check; for every
observer-to-target vector of zero magnitude it still produces a coordinate
pair (NaN in the original floating point) instead of failing, so it diverges
from the spec-modelled checked projector, which fails with DegenerateGeometry
there. -/
theorem projector_degenerate_behavior (v : Vec3) (h : vecNorm v = 0) :
    projectPointChecked v = Except.error GeomError.degenerateGeometry ∧
    Except.ok (CelestialSpherePosFinderPoint v) ≠ projectPointChecked v := by
  have h1 : projectPointChecked v = Except.error GeomError.degenerateGeometry := by
    rw [projectPointChecked, if_pos h]
  exact ⟨h1, by rw [h1]; simp⟩

/-- Witness for the amended claim C5 at the zero vector. -/
theorem projector_degenerate_behavior_witness :
    vecNorm ((0:ℝ), (0:ℝ), (0:ℝ)) = 0 ∧
    (projectPointChecked ((0:ℝ), (0:ℝ), (0:ℝ)) = Except.error GeomError.degenerateGeometry ∧
      Except.ok (CelestialSpherePosFinderPoint ((0:ℝ), (0:ℝ), (0:ℝ))) ≠
        projectPointChecked ((0:ℝ), (0:ℝ), (0:ℝ))) := by
  have hz : vecNorm ((0:ℝ), (0:ℝ), (0:ℝ)) = 0 := by
    simp [vecNorm]
  exact ⟨hz, projector_degenerate_behavior (0, 0, 0) hz⟩

/-- Claim C7: on the two-point grid below, GetDiskProperties returns a single
three-entry record computed from the first point only — its output is
identical to its output on the corresponding one-point grid, instead of a
two-record collection covering both input points. -/
theorem getDiskProperties_first_point_only :
    GetDiskProperties recradUnit 1 (0, 0, 0) [((1:ℝ), (0:ℝ), (0:ℝ)), ((2:ℝ), (0:ℝ), (0:ℝ))] =
      GetDiskProperties recradUnit 1 (0, 0, 0) [((1:ℝ), (0:ℝ), (0:ℝ))] ∧
    GetDiskProperties recradUnit 1 (0, 0, 0) [((1:ℝ), (0:ℝ), (0:ℝ)), ((2:ℝ), (0:ℝ), (0:ℝ))] =
      some (diskPropsPoint recradUnit 1 (0, 0, 0) (1, 0, 0)) :=
  ⟨rfl, rfl⟩

/-- Claim C4 counterexample: the claim asserts fraction 0 for every positive
eps; taking eps = 3π/2 > 0 the incidence angle π/2 + eps equals 2π, where the
source computes illuminated fraction max(0, cos 2π) = 1, not 0 (while the
shadow flag is true). -/
theorem classifyIllumination_large_eps_not_zero :
    0 < 3 * π / 2 ∧ (classifyIllumination (π / 2 + 3 * π / 2)).1 = 1 ∧
      (classifyIllumination (π / 2 + 3 * π / 2)).1 ≠ 0 := by
  have hpi := Real.pi_pos
  have harg : π / 2 + 3 * π / 2 = 2 * π := by ring
  have hcos : (classifyIllumination (π / 2 + 3 * π / 2)).1 = 1 := by
    simp only [classifyIllumination, harg, Real.cos_two_pi]
    norm_num
  refine ⟨by positivity, hcos, ?_⟩
  rw [hcos]
  norm_num

/-- Claim C4 amended: the illuminated fraction is max(0, cos theta) and the
shadow flag holds iff theta exceeds π/2; the classification takes the claimed
values at 0 and π/2, and at π/2 + eps for every eps in (0, π] (incidence
angles never exceed π; for eps above π the fraction is no longer 0, as the
counterexample shows). -/
theorem classifyIllumination_contract (theta e : ℝ) (he : 0 < e) (hepi : e ≤ π) :
    ((classifyIllumination theta).1 = max 0 (Real.cos theta) ∧
      ((classifyIllumination theta).2 ↔ π / 2 < theta)) ∧
    ((classifyIllumination 0).1 = 1 ∧ ¬ (classifyIllumination 0).2) ∧
    ((classifyIllumination (π / 2)).1 = 0 ∧ ¬ (classifyIllumination (π / 2)).2) ∧
    ((classifyIllumination (π / 2 + e)).1 = 0 ∧ (classifyIllumination (π / 2 + e)).2) := by
  have hpi := Real.pi_pos
  refine ⟨⟨rfl, degrees_gt_ninety_iff theta⟩, ⟨?_, ?_⟩, ⟨?_, ?_⟩, ?_, ?_⟩
  · simp only [classifyIllumination, Real.cos_zero]
    norm_num
  · show ¬ degrees 0 > 90
    rw [degrees_gt_ninety_iff]
    linarith
  · simp only [classifyIllumination, Real.cos_pi_div_two]
    norm_num
  · show ¬ degrees (π / 2) > 90
    rw [degrees_gt_ninety_iff]
    linarith
  · have hcos : Real.cos (π / 2 + e) ≤ 0 :=
      Real.cos_nonpos_of_pi_div_two_le_of_le (by linarith) (by linarith)
    simp only [classifyIllumination]
    exact max_eq_left hcos
  · show degrees (π / 2 + e) > 90
    rw [degrees_gt_ninety_iff]
    linarith

/-- Witness for the amended claim C4 at theta = 0 and eps = π/2. -/
theorem classifyIllumination_contract_witness :
    (0 < π / 2 ∧ π / 2 ≤ π) ∧
    (((classifyIllumination 0).1 = max 0 (Real.cos 0) ∧
        ((classifyIllumination 0).2 ↔ π / 2 < 0)) ∧
      ((classifyIllumination 0).1 = 1 ∧ ¬ (classifyIllumination 0).2) ∧
      ((classifyIllumination (π / 2)).1 = 0 ∧ ¬ (classifyIllumination (π / 2)).2) ∧
      ((classifyIllumination (π / 2 + π / 2)).1 = 0 ∧
        (classifyIllumination (π / 2 + π / 2)).2)) := by
  have hpi := Real.pi_pos
  exact ⟨⟨by positivity, by linarith⟩,
    classifyIllumination_contract 0 (π / 2) (by positivity) (by linarith)⟩

/-- Claim C10: for every record returned by compute_illumination (the gateway
returns an incidence angle in [0, π]), the solar flux fraction equals the
illuminated fraction, and whenever the shadow flag holds the illuminated
fraction is 0. -/
theorem computeIllumination_flux_and_shadow (lat lon phase incdnc emissn : ℝ)
    (h0 : 0 ≤ incdnc) (hpi : incdnc ≤ π) :
    (compute_illumination lat lon phase incdnc emissn).solar_flux_fraction =
      (compute_illumination lat lon phase incdnc emissn).illuminated_fraction ∧
    ((compute_illumination lat lon phase incdnc emissn).in_shadow →
      (compute_illumination lat lon phase incdnc emissn).illuminated_fraction = 0) := by
  refine ⟨rfl, ?_⟩
  intro hsh
  have hgt : π / 2 < incdnc := (degrees_gt_ninety_iff incdnc).mp hsh
  have hcos : Real.cos incdnc ≤ 0 :=
    Real.cos_nonpos_of_pi_div_two_le_of_le hgt.le (by linarith [Real.pi_pos])
  show max 0 (Real.cos incdnc) = 0
  exact max_eq_left hcos

/-- Witness for claim C10 at incidence angle π. -/
theorem computeIllumination_flux_and_shadow_witness :
    (0 ≤ π ∧ π ≤ π) ∧
    ((compute_illumination 0 0 0 π 0).solar_flux_fraction =
        (compute_illumination 0 0 0 π 0).illuminated_fraction ∧
      ((compute_illumination 0 0 0 π 0).in_shadow →
        (compute_illumination 0 0 0 π 0).illuminated_fraction = 0)) :=
  ⟨⟨Real.pi_pos.le, le_refl π⟩,
    computeIllumination_flux_and_shadow 0 0 0 π 0 Real.pi_pos.le (le_refl π)⟩

end KexEclipse
